import Mathlib

/-!
Shallow embedding of `src/every.py` (class `Every`: a polling-driven interval
gate that fires a bound action at most once per poll when the stored due time
has been reached).

Modelling decisions, all taken from the source:
* Times are integers (`Int`); the Python code uses floats only as an ambient
  numeric type, and every claim is about ordering and addition of times.
* Python's `self._time_func()` readings are passed as explicit `now` arguments
  to the operations that read the time source (`__init__`, `reset`,
  `__call__`, the `interval` setter, `time_remaining`).  An operation whose
  result is stated for all `now` provably does not depend on the time source.
* Keyword-argument dictionaries are total functions `String → Option V`;
  Python's `{**defaults, **overrides}` merge becomes `pyMerge`.
* The bound action is a function from positional arguments and a keyword
  dictionary to `Except ε α`: `.error` models the action raising.
* Python mutates `self` in place, so each operation returns its result paired
  with the post-state; a `ValueError` raised by the gate itself is
  `CallErr.valueError` and an exception raised by the action propagates as
  `CallErr.raised`.
-/

namespace EveryPy

/-- A keyword-argument dictionary: each parameter name is bound to at most
one value. -/
def Kw (V : Type) : Type := String → Option V

/-- The empty keyword dictionary (`self._kwargs = {}` in `__init__`). -/
def Kw.empty (V : Type) : Kw V := fun _ => none

/-- Python's dict merge `{**defaults, **overrides}`: the override wins
key-for-key, keys absent from the override fall back to the defaults. -/
def pyMerge {V : Type} (defaults overrides : Kw V) : Kw V :=
  fun k =>
    match overrides k with
    | some v => some v
    | none => defaults k

/-- Errors observable from `__call__` / `execute`: the gate's own
`ValueError` (with its message) or an exception raised by the action,
propagated unmodified. -/
inductive CallErr (ε : Type) where
  | valueError (msg : String)
  | raised (x : ε)
deriving DecidableEq

/-- The message of the `ValueError` raised when no action is bound. -/
def noActionMsg : String :=
  "No action has been set. Use the \x27do\x27 method to set a function to execute."

/-- The state of an `Every` instance: the fields set in `__init__`
(`_interval`, `_action`, `_kwargs`, `_paused`, `_next_time`).  The stored
`_time_func` is represented by the explicit `now` arguments below. -/
structure Every (V α ε : Type) where
  interval : Int
  action : Option (List V → Kw V → Except ε α)
  kwargs : Kw V
  paused : Bool
  next_time : Int

/-- `Every.__init__`: rejects a non-positive interval, otherwise starts with
no action, empty kwargs, unpaused, and
`next_time = now if execute_immediately else now + interval`. -/
def Every.init (V α ε : Type) (interval : Int) (execute_immediately : Bool)
    (now : Int) : Except String (Every V α ε) :=
  if interval ≤ 0 then .error "Interval must be positive"
  else
    .ok { interval := interval
          action := none
          kwargs := Kw.empty V
          paused := false
          next_time := if execute_immediately then now else now + interval }

/-- `Every.do`: stores the action and returns the gate (fluent chaining).
Named `do'` because `do` is reserved in Lean. -/
def Every.do' {V α ε : Type} (e : Every V α ε)
    (action : List V → Kw V → Except ε α) : Every V α ε :=
  { e with action := some action }

/-- `Every.among`: stores the keyword arguments (`self._kwargs = kwargs`)
and returns the gate. -/
def Every.among {V α ε : Type} (e : Every V α ε) (kwargs : Kw V) :
    Every V α ε :=
  { e with kwargs := kwargs }

/-- `Every.reset`: `self._next_time = self._time_func() + self._interval`. -/
def Every.reset {V α ε : Type} (e : Every V α ε) (now : Int) : Every V α ε :=
  { e with next_time := now + e.interval }

/-- `Every.pause`: sets the paused flag. -/
def Every.pause {V α ε : Type} (e : Every V α ε) : Every V α ε :=
  { e with paused := true }

/-- `Every.resume`: clears the paused flag. -/
def Every.resume {V α ε : Type} (e : Every V α ε) : Every V α ε :=
  { e with paused := false }

/-- `Every.__call__` (Poll): raises if no action is bound; returns
`(False, None)` when paused; otherwise compares `now` with `next_time` and,
when due, advances `next_time` by exactly one interval and invokes the action
with the positional arguments and the merged keyword arguments. -/
def Every.call {V α ε : Type} (e : Every V α ε) (now : Int) (args : List V)
    (kwargs : Kw V) : Except (CallErr ε) (Bool × Option α) × Every V α ε :=
  match e.action with
  | none => (.error (.valueError noActionMsg), e)
  | some act =>
    if e.paused then (.ok (false, none), e)
    else if now ≥ e.next_time then
      let e' := { e with next_time := e.next_time + e.interval }
      match act args (pyMerge e.kwargs kwargs) with
      | .ok r => (.ok (true, some r), e')
      | .error x => (.error (.raised x), e')
    else (.ok (false, none), e)

/-- `Every.execute`: raises if no action is bound; otherwise invokes the
action immediately with the positional arguments and the merged keyword
arguments, touching no state. -/
def Every.execute {V α ε : Type} (e : Every V α ε) (args : List V)
    (kwargs : Kw V) : Except (CallErr ε) α × Every V α ε :=
  match e.action with
  | none => (.error (.valueError noActionMsg), e)
  | some act => ((act args (pyMerge e.kwargs kwargs)).mapError .raised, e)

/-- The `interval` property setter: rejects a non-positive value without
mutating state; otherwise stores the value and calls `reset`. -/
def Every.setInterval {V α ε : Type} (e : Every V α ε) (value : Int)
    (now : Int) : Except String Unit × Every V α ε :=
  if value ≤ 0 then (.error "Interval must be positive", e)
  else (.ok (), Every.reset { e with interval := value } now)

/-- The `time_remaining` property: `max(0.0, self._next_time - self._time_func())`. -/
def Every.time_remaining {V α ε : Type} (e : Every V α ε) (now : Int) : Int :=
  max 0 (e.next_time - now)

/-! Concrete states and actions used to instantiate the theorems below. -/

/-- Default bindings `{a: 1, b: 2}`. -/
def c1defaults : Kw Int :=
  fun k => if k = "a" then some 1 else if k = "b" then some 2 else none

/-- Later bindings `{b: 99}`, mentioning `b` but not `a`. -/
def c1later : Kw Int := fun k => if k = "b" then some 99 else none

/-- A gate whose existing default bindings are `{a: 1, b: 2}`. -/
def c1gate : Every Int Int Int :=
  { interval := 5, action := none, kwargs := c1defaults, paused := false,
    next_time := 5 }

/-- The state `Every(10)` constructed at time `0` reaches. -/
def c2gate : Every Int Int Int :=
  { interval := 10, action := none, kwargs := Kw.empty Int, paused := false,
    next_time := 10 }

/-- An action that ignores its arguments and returns `42`. -/
def c3act : List Int → Kw Int → Except Int Int := fun _ _ => .ok 42

/-- A configured, unpaused gate with `interval = 2` due at time `4`. -/
def c3gate : Every Int Int Int :=
  { interval := 2, action := some c3act, kwargs := Kw.empty Int,
    paused := false, next_time := 4 }

/-- A gate part-way toward its `next_time`, used to exercise the setter. -/
def c4gate : Every Int Int Int :=
  { interval := 5, action := none, kwargs := Kw.empty Int, paused := false,
    next_time := 8 }

/-! The claims. -/

/-- C1 (counterexample): `among` does not merge into the existing default
bindings.  On a gate whose defaults bind `a` to `1`, a later `among` call
that does not mention `a` leaves `a` unbound: the mapping was replaced
wholesale, not merged. -/
theorem C1_counterexample :
    c1gate.kwargs "a" = some 1 ∧ c1later "a" = none ∧
    (c1gate.among c1later).kwargs "a" = none ∧
    (c1gate.among c1later).kwargs "b" = some 99 := by
  refine ⟨by decide, by decide, by decide, by decide⟩

/-- C1 (amended): `among` replaces the default-bindings mapping wholesale
with the supplied bindings — keys not mentioned in the later call are
discarded, not preserved — while `do` stores the action and touches neither
the bindings nor the schedule. -/
theorem C1_among_replaces_wholesale (e : Every Int Int Int) (kw : Kw Int)
    (act : List Int → Kw Int → Except Int Int) :
    (e.among kw).kwargs = kw ∧
    (e.among kw).action = e.action ∧
    (e.among kw).interval = e.interval ∧
    (e.among kw).paused = e.paused ∧
    (e.among kw).next_time = e.next_time ∧
    (e.do' act).action = some act ∧
    (e.do' act).kwargs = e.kwargs ∧
    (e.do' act).next_time = e.next_time :=
  ⟨rfl, rfl, rfl, rfl, rfl, rfl, rfl, rfl⟩

/-- C2 (counterexample): `next_due` can move backward under an operation
sequence with a monotone (here constant) time source.  `Every(10)` built at
time `0` has `next_time = 10`; setting `interval = 1` at time `0` succeeds
and re-baselines `next_time` to `0 + 1 = 1 < 10`. -/
theorem C2_counterexample :
    Every.init Int Int Int 10 false 0 = .ok c2gate ∧
    (c2gate.setInterval 1 0).1 = .ok () ∧
    (c2gate.setInterval 1 0).2.next_time < c2gate.next_time :=
  ⟨rfl, rfl, by decide⟩

/-- C2 (amended): across `__call__` (Poll) invocations, `next_time` never
moves backward and each call leaves it unchanged or advances it by exactly
one interval — never re-baselined to `now + interval`.  (`reset` and the
`interval` setter do re-baseline to `now + interval`, which can move
`next_time` backward, as the counterexample shows.) -/
theorem C2_poll_next_due_monotone (e : Every Int Int Int) (now : Int)
    (args : List Int) (kw : Kw Int) (h : 0 < e.interval) :
    e.next_time ≤ ((e.call now args kw).2).next_time ∧
    (((e.call now args kw).2).next_time = e.next_time ∨
      ((e.call now args kw).2).next_time = e.next_time + e.interval) := by
  unfold Every.call
  cases ha : e.action with
  | none => simp
  | some act =>
    by_cases hp : e.paused
    · simp [hp]
    · by_cases hd : now ≥ e.next_time
      · cases hr : act args (pyMerge e.kwargs kw) with
        | ok r => simp [hp, hd, hr]; omega
        | error x => simp [hp, hd, hr]; omega
      · simp [hp, hd]

/-- C2 witness: the amended theorem evaluated on a concrete due gate. -/
theorem C2_poll_next_due_monotone_witness :
    (0 : Int) < c3gate.interval ∧
    (c3gate.next_time ≤ ((c3gate.call 14 [] (Kw.empty Int)).2).next_time ∧
      (((c3gate.call 14 [] (Kw.empty Int)).2).next_time = c3gate.next_time ∨
        ((c3gate.call 14 [] (Kw.empty Int)).2).next_time =
          c3gate.next_time + c3gate.interval)) :=
  ⟨by decide, C2_poll_next_due_monotone c3gate 14 [] (Kw.empty Int) (by decide)⟩

/-- C3: on a configured, unpaused gate that is due — even when `now` is far
past `next_time`, e.g. five intervals late — a single poll invokes the
action exactly once, returns `(true, result)`, and advances `next_time` by
exactly one interval, not to `now + interval`. -/
theorem C3_poll_fires_once_one_interval (e : Every Int Int Int) (now : Int)
    (args : List Int) (kw : Kw Int)
    (act : List Int → Kw Int → Except Int Int) (r : Int)
    (ha : e.action = some act) (hp : e.paused = false)
    (hdue : e.next_time ≤ now)
    (hr : act args (pyMerge e.kwargs kw) = .ok r) :
    e.call now args kw =
      (.ok (true, some r), { e with next_time := e.next_time + e.interval }) := by
  simp [Every.call, ha, hp, hdue, hr]

/-- C3 witness: the gate due at `4` with `interval = 2` polled at `14`
(five intervals late) fires once and moves `next_time` to `6`, not `16`. -/
theorem C3_witness :
    c3gate.next_time ≤ 14 ∧
    c3gate.call 14 [] (Kw.empty Int) =
      (.ok (true, some 42),
        { c3gate with next_time := c3gate.next_time + c3gate.interval }) :=
  ⟨by decide,
    C3_poll_fires_once_one_interval c3gate 14 [] (Kw.empty Int) c3act 42
      rfl rfl (by decide) rfl⟩

/-- C4: the interval setter rejects `value ≤ 0` leaving the whole state —
in particular the stored interval and `next_time` — unchanged, and for
`value > 0` stores the value and re-baselines `next_time = now + value`. -/
theorem C4_interval_setter (e : Every Int Int Int) (v now : Int) :
    (v ≤ 0 → e.setInterval v now = (.error "Interval must be positive", e)) ∧
    (0 < v → e.setInterval v now =
      (.ok (), { e with interval := v, next_time := now + v })) := by
  constructor
  · intro hv; simp [Every.setInterval, hv]
  · intro hv; simp [Every.setInterval, Every.reset, not_le.mpr hv]

/-- C4 witness: setting `interval = -1` fails without mutating `c4gate`;
setting `interval = 2` at time `100` stores `2` and re-baselines
`next_time` to `102`, discarding progress toward the old due time `8`. -/
theorem C4_witness :
    c4gate.setInterval (-1) 100 = (.error "Interval must be positive", c4gate) ∧
    c4gate.setInterval 2 100 =
      (.ok (), { c4gate with interval := 2, next_time := 102 }) :=
  ⟨(C4_interval_setter c4gate (-1) 100).1 (by decide),
    (C4_interval_setter c4gate 2 100).2 (by decide)⟩

/-- An action returning `7`, bound after an execute-immediately construction. -/
def c5act : List Int → Kw Int → Except Int Int := fun _ _ => .ok 7

/-- The state `Every(3, execute_immediately=True)` built at time `10` reaches. -/
def c5gate : Every Int Int Int :=
  { interval := 3, action := none, kwargs := Kw.empty Int, paused := false,
    next_time := 10 }

/-- C5: construction with `interval ≤ 0` fails with the `ValueError`; with
`interval > 0` it yields `next_time = now + interval`, or `next_time = now`
when `execute_immediately` is set, and in the latter case the very first
poll — at any `now' ≥ now`, however little time has elapsed — fires. -/
theorem C5_construction (i now : Int) :
    (i ≤ 0 →
      Every.init Int Int Int i false now = .error "Interval must be positive" ∧
      Every.init Int Int Int i true now = .error "Interval must be positive") ∧
    (0 < i →
      Every.init Int Int Int i false now =
        .ok { interval := i, action := none, kwargs := Kw.empty Int,
              paused := false, next_time := now + i } ∧
      Every.init Int Int Int i true now =
        .ok { interval := i, action := none, kwargs := Kw.empty Int,
              paused := false, next_time := now } ∧
      ∀ g : Every Int Int Int, Every.init Int Int Int i true now = .ok g →
        ∀ (act : List Int → Kw Int → Except Int Int) (now' r : Int),
          now ≤ now' → act [] (pyMerge g.kwargs (Kw.empty Int)) = .ok r →
          (g.do' act).call now' [] (Kw.empty Int) =
            (.ok (true, some r),
              { g.do' act with next_time := g.next_time + i })) := by
  constructor
  · intro hi; constructor <;> simp [Every.init, hi]
  · intro hi
    have hni : ¬ i ≤ 0 := not_le.mpr hi
    refine ⟨by simp [Every.init, hni], by simp [Every.init, hni], ?_⟩
    intro g hg act now' r hnow hact
    simp [Every.init, hni] at hg
    subst hg
    simp [Every.do', Every.call, hnow, hact] at hact ⊢

/-- C5 witness: `Every(3, execute_immediately=True)` built at time `10`,
given an action, fires on the very first poll at the same instant `10`. -/
theorem C5_witness :
    Every.init Int Int Int 3 true 10 = .ok c5gate ∧
    (c5gate.do' c5act).call 10 [] (Kw.empty Int) =
      (.ok (true, some 7),
        { c5gate.do' c5act with next_time := c5gate.next_time + 3 }) :=
  ⟨((C5_construction 3 10).2 (by decide)).2.1,
    ((C5_construction 3 10).2 (by decide)).2.2 c5gate
      ((C5_construction 3 10).2 (by decide)).2.1 c5act 10 7 (by decide) rfl⟩

/-- An unconfigured gate (no action bound). -/
def c6unconfigured : Every Int Int Int :=
  { interval := 1, action := none, kwargs := Kw.empty Int, paused := false,
    next_time := 0 }

/-- An action returning `0`. -/
def c6act : List Int → Kw Int → Except Int Int := fun _ _ => .ok 0

/-- A configured but paused gate that is already due (`next_time = 0`). -/
def c6paused : Every Int Int Int :=
  { interval := 1, action := some c6act, kwargs := Kw.empty Int,
    paused := true, next_time := 0 }

/-- C6: with no action bound, `__call__` fails with the `ValueError` for
every `now` — so before and independently of any time-source reading — and
with an action bound but the gate paused, it returns `(false, none)` for
every `now`, leaving the whole state (in particular `next_time`)
unchanged. -/
theorem C6_precondition_order (e : Every Int Int Int) (args : List Int)
    (kw : Kw Int) :
    (e.action = none →
      ∀ now : Int, e.call now args kw = (.error (.valueError noActionMsg), e)) ∧
    (∀ act, e.action = some act → e.paused = true →
      ∀ now : Int, e.call now args kw = (.ok (false, none), e)) := by
  constructor
  · intro ha now; simp [Every.call, ha]
  · intro act ha hp now; simp [Every.call, ha, hp]

/-- C6 witness: the unconfigured gate raises at time `0`; the paused gate,
although due at time `0`, returns `(false, none)` unchanged. -/
theorem C6_witness :
    c6unconfigured.call 0 [] (Kw.empty Int) =
      (.error (.valueError noActionMsg), c6unconfigured) ∧
    c6paused.call 0 [] (Kw.empty Int) = (.ok (false, none), c6paused) :=
  ⟨(C6_precondition_order c6unconfigured [] (Kw.empty Int)).1 rfl 0,
    (C6_precondition_order c6paused [] (Kw.empty Int)).2 c6act rfl rfl 0⟩

/-- An action that always raises (error code `7`). -/
def c7act : List Int → Kw Int → Except Int Int := fun _ _ => .error 7

/-- A configured, unpaused gate bound to the raising action, due at `4`. -/
def c7gate : Every Int Int Int :=
  { interval := 2, action := some c7act, kwargs := Kw.empty Int,
    paused := false, next_time := 4 }

/-- C7: when a due poll's action raises, the error propagates to the caller
unmodified (as `CallErr.raised` carrying the action's own error), and the
post-state retains the `next_time` advancement by one interval made before
the action was invoked — so the failure is not retried before the next
natural interval. -/
theorem C7_action_error_propagates (e : Every Int Int Int) (now : Int)
    (args : List Int) (kw : Kw Int)
    (act : List Int → Kw Int → Except Int Int) (x : Int)
    (ha : e.action = some act) (hp : e.paused = false)
    (hdue : e.next_time ≤ now)
    (hx : act args (pyMerge e.kwargs kw) = .error x) :
    e.call now args kw =
      (.error (.raised x),
        { e with next_time := e.next_time + e.interval }) := by
  simp [Every.call, ha, hp, hdue, hx]

/-- C7 witness: the raising action's error `7` propagates from a due poll at
time `5`, and `next_time` ends at `6`, one interval past the old `4`. -/
theorem C7_witness :
    c7gate.next_time ≤ 5 ∧
    c7gate.call 5 [] (Kw.empty Int) =
      (.error (.raised 7),
        { c7gate with next_time := c7gate.next_time + c7gate.interval }) :=
  ⟨by decide,
    C7_action_error_propagates c7gate 5 [] (Kw.empty Int) c7act 7
      rfl rfl (by decide) rfl⟩

/-- An action returning `42`. -/
def c8act : List Int → Kw Int → Except Int Int := fun _ _ => .ok 42

/-- A paused gate whose `next_time` lies far in the future. -/
def c8gate : Every Int Int Int :=
  { interval := 2, action := some c8act, kwargs := Kw.empty Int,
    paused := true, next_time := 1000 }

/-- C8: `execute` on an unconfigured gate fails with the same `ValueError`
as `__call__`; with an action bound it invokes the action with the merged
bindings and returns its raw result — for every state, hence regardless of
`next_time` and of the paused flag — and the post-state is exactly the
input state: neither `next_time` nor `paused` is mutated. -/
theorem C8_execute_frame (e : Every Int Int Int) (args : List Int)
    (kw : Kw Int) :
    (e.action = none →
      e.execute args kw = (.error (.valueError noActionMsg), e)) ∧
    (∀ act, e.action = some act →
      e.execute args kw =
        ((act args (pyMerge e.kwargs kw)).mapError CallErr.raised, e)) := by
  constructor
  · intro ha; simp [Every.execute, ha]
  · intro act ha; simp [Every.execute, ha]

/-- C8 witness: a paused gate not yet due still executes, returning the
action's raw result `42`, with the state returned unchanged. -/
theorem C8_witness :
    c8gate.paused = true ∧
    c8gate.execute [] (Kw.empty Int) = (.ok 42, c8gate) :=
  ⟨rfl, (C8_execute_frame c8gate [] (Kw.empty Int)).2 c8act rfl⟩

/-- An action reporting which bindings it received: `100*a + b`. -/
def c9act : List Int → Kw Int → Except Int Int :=
  fun _ kw => .ok (100 * (kw "a").getD 0 + (kw "b").getD 0)

/-- A due, unpaused gate with defaults `{a: 1, b: 2}` bound to `c9act`. -/
def c9gate : Every Int Int Int :=
  { interval := 1, action := some c9act, kwargs := c1defaults,
    paused := false, next_time := 0 }

/-- C9: both `execute` and a due `__call__` invoke the action with exactly
`pyMerge defaults overrides`, and that merge lets the override win
key-for-key: every key the override binds keeps the override's value, and
every key it does not bind keeps the default's value. -/
theorem C9_override_wins (e : Every Int Int Int) (now : Int)
    (args : List Int) (kw : Kw Int)
    (act : List Int → Kw Int → Except Int Int)
    (ha : e.action = some act) :
    (e.execute args kw).1 =
      (act args (pyMerge e.kwargs kw)).mapError CallErr.raised ∧
    (e.paused = false → e.next_time ≤ now →
      (e.call now args kw).1 =
        ((act args (pyMerge e.kwargs kw)).map
          (fun r => (true, some r))).mapError CallErr.raised) ∧
    (∀ k v, kw k = some v → pyMerge e.kwargs kw k = some v) ∧
    (∀ k, kw k = none → pyMerge e.kwargs kw k = e.kwargs k) := by
  refine ⟨by simp [Every.execute, ha], ?_, ?_, ?_⟩
  · intro hp hdue
    cases hr : act args (pyMerge e.kwargs kw) <;>
      simp [Every.call, ha, hp, hdue, hr, Except.map, Except.mapError]
  · intro k v hk; simp [pyMerge, hk]
  · intro k hk; simp [pyMerge, hk]

/-- C9 witness: with defaults `{a: 1, b: 2}` and per-call override
`{b: 99}`, a due poll invokes the action with `a = 1, b = 99`, observed as
the reported value `100*1 + 99 = 199`. -/
theorem C9_witness :
    c9gate.paused = false ∧ c9gate.next_time ≤ 0 ∧
    (c9gate.call 0 [] c1later).1 = .ok (true, some 199) := by
  refine ⟨rfl, by decide, ?_⟩
  have h :=
    (C9_override_wins c9gate 0 [] c1later c9act rfl).2.1 rfl (by decide)
  rw [h]; rfl

/-- An action reporting its first positional argument. -/
def c10act : List Int → Kw Int → Except Int Int :=
  fun args _ => .ok (args.headD 0)

/-- A due, unpaused gate with empty defaults bound to `c10act`. -/
def c10gate : Every Int Int Int :=
  { interval := 1, action := some c10act, kwargs := Kw.empty Int,
    paused := false, next_time := 0 }

/-- C10: `execute` and a due `__call__` pass the positional arguments to
the action verbatim, ahead of the merged keyword bindings, and the
positional arguments are never stored: the post-state's default bindings
are unchanged by both operations. -/
theorem C10_positional_args_forwarded (e : Every Int Int Int) (now : Int)
    (args : List Int) (kw : Kw Int)
    (act : List Int → Kw Int → Except Int Int)
    (ha : e.action = some act) :
    (e.execute args kw).1 =
      (act args (pyMerge e.kwargs kw)).mapError CallErr.raised ∧
    (e.execute args kw).2.kwargs = e.kwargs ∧
    (e.call now args kw).2.kwargs = e.kwargs ∧
    (e.paused = false → e.next_time ≤ now →
      (e.call now args kw).1 =
        ((act args (pyMerge e.kwargs kw)).map
          (fun r => (true, some r))).mapError CallErr.raised) := by
  refine ⟨by simp [Every.execute, ha], by simp [Every.execute, ha], ?_, ?_⟩
  · unfold Every.call
    rw [ha]
    by_cases hp : e.paused
    · simp [hp]
    · by_cases hd : now ≥ e.next_time
      · cases hr : act args (pyMerge e.kwargs kw) <;> simp [hp, hd, hr]
      · simp [hp, hd]
  · intro hp hdue
    cases hr : act args (pyMerge e.kwargs kw) <;>
      simp [Every.call, ha, hp, hdue, hr, Except.map, Except.mapError]

/-- C10 witness: polling with positional arguments `[7, 8]` hands them to
the action unchanged (it reports the first one, `7`) and stores nothing:
the post-state's default bindings are still the gate's own. -/
theorem C10_witness :
    c10gate.paused = false ∧ c10gate.next_time ≤ 0 ∧
    (c10gate.call 0 [7, 8] (Kw.empty Int)).1 = .ok (true, some 7) ∧
    (c10gate.call 0 [7, 8] (Kw.empty Int)).2.kwargs = c10gate.kwargs := by
  refine ⟨rfl, by decide, ?_,
    (C10_positional_args_forwarded c10gate 0 [7, 8] (Kw.empty Int) c10act
      rfl).2.2.1⟩
  have h :=
    (C10_positional_args_forwarded c10gate 0 [7, 8] (Kw.empty Int) c10act
      rfl).2.2.2 rfl (by decide)
  rw [h]; rfl

end EveryPy
